import Mathlib

/-!
WASP rule-extraction and classification pipeline: a shallow embedding.

This file embeds the core logic of the WASP repository's three tools
(`cis-excel-to-json.py`, `validate_check_types.py`, `fix_check_types.py`)
as executable Lean definitions, and proves or refutes the specification's
claims about them.

Python strings are modelled as `String` (operated on via `List Char`);
Python's substring test `pat in s`, `str.startswith`, `str.strip`,
`str.lower`, `str.replace` and the concrete regular expressions used by
the tools are modelled by structurally recursive functions below.
Fallible extraction returns `Option`; the validator's whole-baseline pass,
which can raise `KeyError`, returns `Except String`.
-/

/-- Python's whitespace class for `str.strip` / regex `\s` (ASCII part). -/
def isPySpace (c : Char) : Bool :=
  c = ' ' || c = '\t' || c = '\n' || c = '\r' || c = '\x0b' || c = '\x0c'

/-- A character that ends a `[^,\s]+` capture group: comma or whitespace. -/
def isSepChar (c : Char) : Bool := c = ',' || isPySpace c

/-- Python `str.strip()` on a character list. -/
def stripChars (l : List Char) : List Char :=
  ((l.dropWhile isPySpace).reverse.dropWhile isPySpace).reverse

/-- Collapse each whitespace run to a single space (regex `\s+` → `" "`);
`prev` records whether the previous character was whitespace. -/
def collapseWS : Bool → List Char → List Char
  | _, [] => []
  | prev, c :: cs =>
    if isPySpace c then
      if prev then collapseWS true cs else ' ' :: collapseWS true cs
    else c :: collapseWS false cs

/-- Python substring test `pat in s` on character lists. -/
def containsList (pat : List Char) : List Char → Bool
  | [] => pat.isEmpty
  | c :: cs => pat.isPrefixOf (c :: cs) || containsList pat cs

/-- Python `pat in s` for strings. -/
def strContains (s pat : String) : Bool := containsList pat.data s.data

/-- Python `s.startswith pat`. -/
def strStartsWith (s pat : String) : Bool := pat.data.isPrefixOf s.data

/-- Python `str.lower()` (ASCII). -/
def lowerStr (s : String) : String := ⟨s.data.map Char.toLower⟩

/-- One fuelled step list of Python `str.replace(pat, rep)`:
leftmost non-overlapping occurrences, scanning left to right. -/
def replaceAllAux (pat rep : List Char) : Nat → List Char → List Char
  | 0, s => s
  | _ + 1, [] => []
  | n + 1, c :: cs =>
    if pat.isPrefixOf (c :: cs) then
      rep ++ replaceAllAux pat rep n (List.drop pat.length (c :: cs))
    else c :: replaceAllAux pat rep n cs

/-- Python `str.replace(pat, rep)` on character lists (`pat` nonempty in
all uses; the empty-pattern case returns the input unchanged). -/
def replaceAll (pat rep s : List Char) : List Char :=
  if pat.isEmpty then s else replaceAllAux pat rep s.length s

/-- Case-insensitive literal match at the head of `s`; returns the
matched original-case characters and the remainder. -/
def matchLitCI : List Char → List Char → Option (List Char × List Char)
  | [], s => some ([], s)
  | _ :: _, [] => none
  | p :: ps, c :: cs =>
    if p.toLower = c.toLower then
      (matchLitCI ps cs).map (fun m => (c :: m.1, m.2))
    else none

/-- Try regex `LIT[^,\s]+` (case-insensitive) anchored at the head of `s`;
on success return the whole match (group 0, original case). -/
def tryPatA (lit s : List Char) : Option (List Char) :=
  match matchLitCI lit s with
  | none => none
  | some (m, rest) =>
    let cap := rest.takeWhile (fun c => !isSepChar c)
    if cap.isEmpty then none else some (m ++ cap)

/-- Search (Python re.search) for `LIT[^,\s]+` (case-insensitive): leftmost match. -/
def searchPatA (lit : List Char) : List Char → Option (List Char)
  | [] => none
  | c :: cs =>
    match tryPatA lit (c :: cs) with
    | some g => some g
    | none => searchPatA lit cs

/-- Try regex `Registry Hive: HIVE\s+Registry Path: ([^,\s]+)`
(case-insensitive) anchored at the head of `s`; on success return the
captured group 1. -/
def tryPatB (hive s : List Char) : Option (List Char) :=
  match matchLitCI ("Registry Hive: ".data ++ hive) s with
  | none => none
  | some (_, rest) =>
    let ws := rest.takeWhile isPySpace
    if ws.isEmpty then none
    else
      match matchLitCI "Registry Path: ".data (rest.dropWhile isPySpace) with
      | none => none
      | some (_, rest2) =>
        let cap := rest2.takeWhile (fun c => !isSepChar c)
        if cap.isEmpty then none else some cap

/-- Search for the labelled hive/path pattern: leftmost match. -/
def searchPatB (hive : List Char) : List Char → Option (List Char)
  | [] => none
  | c :: cs =>
    match tryPatB hive (c :: cs) with
    | some g => some g
    | none => searchPatB hive cs

/-- Try regex `LABEL([^,\s]+)` (case-insensitive) anchored at the head;
on success return the captured group 1. -/
def tryLabel (lab s : List Char) : Option (List Char) :=
  match matchLitCI lab s with
  | none => none
  | some (_, rest) =>
    let cap := rest.takeWhile (fun c => !isSepChar c)
    if cap.isEmpty then none else some cap

/-- Search for `LABEL([^,\s]+)` (case-insensitive): leftmost match. -/
def searchLabel (lab : List Char) : List Char → Option (List Char)
  | [] => none
  | c :: cs =>
    match tryLabel lab (c :: cs) with
    | some g => some g
    | none => searchLabel lab cs

/-- Variant of `searchLabel` on strings, with Python's trailing `.strip()` applied
to the captured token. -/
def searchLabelStr (lab s : String) : Option String :=
  (searchLabel lab.data s.data).map (fun l => ⟨stripChars l⟩)

/-! ## `cis-excel-to-json.py` -/

/-- Function `clean_text`: strip, then collapse internal whitespace runs. -/
def clean_text (text : String) : String :=
  ⟨collapseWS false (stripChars text.data)⟩

/-- Matcher for `^(\d+\.\d+\.\d+)` over a character list; each `\d+` is
a maximal nonempty digit run (the regex cannot backtrack into fewer
digits because `.` is not a digit). -/
def extract_rule_id_core (l : List Char) : Option (List Char) :=
  if (l.takeWhile Char.isDigit).isEmpty then none
  else
    match l.dropWhile Char.isDigit with
    | [] => none
    | c1 :: r2 =>
      if c1 = '.' then
        if (r2.takeWhile Char.isDigit).isEmpty then none
        else
          match r2.dropWhile Char.isDigit with
          | [] => none
          | c2 :: r4 =>
            if c2 = '.' then
              if (r4.takeWhile Char.isDigit).isEmpty then none
              else
                some (l.takeWhile Char.isDigit ++
                  '.' :: (r2.takeWhile Char.isDigit ++ '.' :: r4.takeWhile Char.isDigit))
            else none
      else none

/-- Function `extract_rule_id`: match `^(\d+\.\d+\.\d+)` against the stripped
title. -/
def extract_rule_id (title : String) : Option String :=
  if title = "" then none
  else (extract_rule_id_core (stripChars title.data)).map (fun l => ⟨l⟩)

/-- Service keywords tested against the lowered title. -/
def service_title_keywords : List String :=
  ["service", "spooler", "telnet", "tftp", "snmp"]

/-- Registry keywords tested against the lowered check text. -/
def registry_check_keywords : List String :=
  ["registry", "regedit", "hklm", "hkcu", "hkey"]

/-- Audit-policy keywords tested against the lowered title. -/
def audit_title_keywords : List String :=
  ["audit", "auditing", "logon", "logoff"]

/-- Security-policy keywords tested against the lowered title. -/
def secpol_title_keywords : List String :=
  ["security policy", "secedit", "local policy"]

/-- Function `determine_check_type`: ordered keyword tests, first match wins,
default `"registry"`. -/
def determine_check_type (title check : String) : String :=
  if service_title_keywords.any (fun k => strContains (lowerStr title) k) then "service"
  else if registry_check_keywords.any (fun k => strContains (lowerStr check) k) then "registry"
  else if audit_title_keywords.any (fun k => strContains (lowerStr title) k) then "audit_policy"
  else if secpol_title_keywords.any (fun k => strContains (lowerStr title) k) then "security_policy"
  else "registry"

/-- Python `path.endswith(':')`. -/
def endsWithColon (p : List Char) : Bool :=
  match p.getLast? with
  | some c => c = ':'
  | none => false

/-- Normalization step of `parse_registry_target`: rewrite fully
qualified hive names to `HKLM:`/`HKCU:`, then, when the result does not
end in `:`, insert a colon after a short hive name. -/
def normalize_registry_path (path : List Char) : List Char :=
  let p := replaceAll "HKEY_LOCAL_MACHINE".data "HKLM:".data path
  let p := replaceAll "HKEY_CURRENT_USER".data "HKCU:".data p
  if endsWithColon p then p
  else
    let p := replaceAll "HKLM\\".data "HKLM:\\".data p
    replaceAll "HKCU\\".data "HKCU:\\".data p

/-- Function `parse_registry_target`: six patterns tried in order, first match
wins; the matched path is then normalized. -/
def parse_registry_target (check : String) : Option String :=
  let s := check.data
  ((((((searchPatA "HKLM\\".data s).orElse
      (fun _ => searchPatA "HKCU\\".data s)).orElse
      (fun _ => searchPatA "HKEY_LOCAL_MACHINE\\".data s)).orElse
      (fun _ => searchPatA "HKEY_CURRENT_USER\\".data s)).orElse
      (fun _ => searchPatB "HKEY_LOCAL_MACHINE".data s)).orElse
      (fun _ => searchPatB "HKEY_CURRENT_USER".data s)).map
    (fun p => ⟨normalize_registry_path p⟩)

/-- Function `parse_registry_name`: four labelled patterns tried in order. -/
def parse_registry_name (check : String) : Option String :=
  (((searchLabelStr "Value Name: " check).orElse
    (fun _ => searchLabelStr "Registry Value: " check)).orElse
    (fun _ => searchLabelStr "Value: " check)).orElse
    (fun _ => searchLabelStr "Name: " check)

/-- Function `parse_expected_value`: six labelled patterns tried in order. -/
def parse_expected_value (check : String) : Option String :=
  (((((searchLabelStr "Expected: " check).orElse
    (fun _ => searchLabelStr "Value: " check)).orElse
    (fun _ => searchLabelStr "Setting: " check)).orElse
    (fun _ => searchLabelStr "Configured to: " check)).orElse
    (fun _ => searchLabelStr "Set to: " check)).orElse
    (fun _ => searchLabelStr "Should be: " check)

/-- Function `parse_service_info`: `(service_name, expected_status,
expected_start_type)`, each independently optional. -/
def parse_service_info (check : String) :
    Option String × Option String × Option String :=
  let sn := searchLabelStr "Service Name: " check
  let es := ((searchLabelStr "Status: " check).orElse
    (fun _ => searchLabelStr "Service Status: " check)).orElse
    (fun _ => searchLabelStr "Should be: " check)
  let est := ((searchLabelStr "Start Type: " check).orElse
    (fun _ => searchLabelStr "Startup Type: " check)).orElse
    (fun _ => searchLabelStr "Start Mode: " check)
  (sn, es, est)

/-- Function `parse_audit_policy_info`: `(audit_category, audit_subcategory,
expected_setting)`, each independently optional. -/
def parse_audit_policy_info (check : String) :
    Option String × Option String × Option String :=
  let ac := searchLabelStr "Category: " check
  let asub := searchLabelStr "Subcategory: " check
  let es := ((searchLabelStr "Setting: " check).orElse
    (fun _ => searchLabelStr "Should be: " check)).orElse
    (fun _ => searchLabelStr "Expected: " check)
  (ac, asub, es)

/-- The Rule Record emitted by the converter. `none` models an absent
JSON key. -/
structure Rule where
  id : String
  title : String
  check_type : String
  skip : Bool
  target : Option String := none
  registry_name : Option String := none
  expected_value : Option String := none
  service_name : Option String := none
  expected_status : Option String := none
  expected_start_type : Option String := none
  audit_category : Option String := none
  audit_subcategory : Option String := none
  expected_setting : Option String := none
  level : Option String := none
deriving DecidableEq, Repr

/-- Titles that mark header/placeholder rows, compared against the
lowered cleaned title. -/
def header_titles : List String := ["title", "recommendation", "rule", "na"]

/-- The per-row body of `process_excel_file`: clean the cells, drop
header/empty rows and rows without a parseable ID, classify, and attach
only the type-appropriate extracted sub-fields. -/
def process_row (rawTitle rawCheck : String) (rawLevel : Option String) :
    Option Rule :=
  let title := clean_text rawTitle
  let check := clean_text rawCheck
  if title = "" || header_titles.contains (lowerStr title) then none
  else
    match extract_rule_id title with
    | none => none
    | some rule_id =>
      let check_type := determine_check_type title check
      let base : Rule :=
        { id := rule_id, title := title, check_type := check_type, skip := false }
      let r :=
        if check_type = "registry" then
          { base with
            target := parse_registry_target check,
            registry_name := parse_registry_name check,
            expected_value := parse_expected_value check }
        else if check_type = "service" then
          let si := parse_service_info check
          { base with
            service_name := si.1,
            expected_status := si.2.1,
            expected_start_type := si.2.2 }
        else if check_type = "audit_policy" then
          let ai := parse_audit_policy_info check
          { base with
            audit_category := ai.1,
            audit_subcategory := ai.2.1,
            expected_setting := ai.2.2 }
        else base
      let r :=
        match rawLevel with
        | some lv =>
          let lv := clean_text lv
          if lv ≠ "" then { r with level := some lv } else r
        | none => r
      some r

/-! ## `validate_check_types.py` -/

/-- A rule record as read back from the baseline JSON by the validator;
`none` models an absent key (every field is read with `rule.get`). -/
structure VRule where
  id : Option String := none
  title : Option String := none
  description : Option String := none
  remediation_procedure : Option String := none
  audit_procedure : Option String := none
  target : Option String := none
  check_type : Option String := none
deriving DecidableEq, Repr

/-- The running `(suggested_type, confidence, reasons)` state of
`analyze_rule`. -/
def AState : Type := Option String × String × List String

instance : DecidableEq AState := by unfold AState; infer_instance

/-- The validator's `secpol_keywords` bank. -/
def secpol_keywords : List String :=
  ["password", "account lockout", "user rights", "security options",
   "audit policy", "event log", "system services", "registry",
   "file system", "wireless network", "public key", "ipsec",
   "administrative templates", "windows settings", "security settings",
   "local policies", "account policies", "kerberos", "domain controller",
   "domain member", "stand-alone", "domain", "local computer"]

/-- The validator's `registry_keywords` bank. -/
def registry_keywords : List String :=
  ["registry", "regedit", "hklm", "hkcu", "hkcr", "hku",
   "currentcontrolset", "software\\", "system\\", "windows\\",
   "microsoft\\", "policies\\", "explorer\\", "internet settings",
   "network\\", "services\\", "drivers\\", "control\\"]

/-- The validator's `auditpol_keywords` bank. -/
def auditpol_keywords : List String :=
  ["audit", "auditing", "audit policy", "audit settings",
   "success and failure", "success", "failure", "no auditing",
   "auditpol", "audit policy change", "logon audit", "object access audit"]

/-- Block of `analyze_rule` for the title: audit-policy keywords in the title. -/
def vstep_title (title : String) (s : AState) : AState :=
  if auditpol_keywords.any (fun k => strContains title k) then
    if strContains title "audit" && (strContains title "policy" || strContains title "auditing") then
      (some "auditpol", "high", s.2.2 ++ ["Title contains audit policy keywords"])
    else s
  else s

/-- Block of `analyze_rule` for the description: registry keywords in the
description. -/
def vstep_description (description : String) (s : AState) : AState :=
  if registry_keywords.any (fun k => strContains description k) then
    if strContains description "registry" && (strContains description "key" || strContains description "value") then
      (some "registry", "high", s.2.2 ++ ["Description mentions registry keys/values"])
    else s
  else s

/-- Block of `analyze_rule` for the remediation text. -/
def vstep_remediation (remediation : String) (s : AState) : AState :=
  if remediation = "" then s
  else if strContains remediation "registry" && (strContains remediation "hklm" || strContains remediation "hkcu") then
    (some "registry", "high", s.2.2 ++ ["Remediation mentions registry paths"])
  else if strContains remediation "security settings" || strContains remediation "policies" then
    if strContains remediation "audit" then
      (some "auditpol", "medium", s.2.2 ++ ["Remediation mentions audit policy settings"])
    else
      (some "secpol", "medium", s.2.2 ++ ["Remediation mentions security policy settings"])
  else s

/-- Block of `analyze_rule` for the audit procedure. -/
def vstep_audit (audit_procedure : String) (s : AState) : AState :=
  if audit_procedure = "" then s
  else if strStartsWith audit_procedure "hklm" || strStartsWith audit_procedure "hkcu" then
    (some "registry", "high", s.2.2 ++ ["Audit procedure specifies registry path"])
  else if strContains audit_procedure "auditpol" then
    (some "auditpol", "high", s.2.2 ++ ["Audit procedure mentions auditpol"])
  else if strContains audit_procedure "secedit" || strContains audit_procedure "security policy" then
    (some "secpol", "high", s.2.2 ++ ["Audit procedure mentions security policy"])
  else s

/-- Block of `analyze_rule` for the target field. -/
def vstep_target (target : String) (s : AState) : AState :=
  if target = "" then s
  else if strContains target "registry" then
    (some "registry", "high", s.2.2 ++ ["Target field specifies Registry"])
  else if strContains target "audit policy" then
    (some "auditpol", "high", s.2.2 ++ ["Target field specifies Audit Policy"])
  else if strContains target "security" || strContains target "policies" then
    (some "secpol", "medium", s.2.2 ++ ["Target field mentions security/policies"])
  else s

/-- Block of `analyze_rule` for the special cases (four independent tests). -/
def vstep_special (title description : String) (s : AState) : AState :=
  let s :=
    if strContains title "password" || strContains title "account lockout" then
      if !strContains title "audit" && !strContains description "audit" then
        ((some "secpol", "high", s.2.2 ++ ["Password/account lockout settings are security policy"]) : AState)
      else s
    else s
  let s :=
    if strContains title "user rights" || strContains title "user right" then
      ((some "secpol", "high", s.2.2 ++ ["User rights are security policy settings"]) : AState)
    else s
  let s :=
    if strContains title "system services" || strContains title "service" then
      ((some "secpol", "high", s.2.2 ++ ["System services are security policy settings"]) : AState)
    else s
  let s :=
    if strContains title "file system" || strContains title "ntfs" then
      ((some "secpol", "high", s.2.2 ++ ["File system settings are security policy"]) : AState)
    else s
  s

/-- Block of `analyze_rule` for the default: secpol keyword bank over the title
when no signal fired. -/
def vstep_default (title : String) (s : AState) : AState :=
  match s.1 with
  | some _ => s
  | none =>
    if secpol_keywords.any (fun k => strContains title k) then
      (some "secpol", "low", s.2.2 ++ ["Default to secpol for security-related rules"])
    else s

/-- Function `analyze_rule`: evaluate all signal blocks in sequence over the
lowered text fields; each firing signal overwrites the running
suggestion (last match wins). -/
def analyze_rule (rule : VRule) : AState :=
  vstep_default (lowerStr (rule.title.getD ""))
    (vstep_special (lowerStr (rule.title.getD "")) (lowerStr (rule.description.getD ""))
      (vstep_target (lowerStr (rule.target.getD ""))
        (vstep_audit (lowerStr (rule.audit_procedure.getD ""))
          (vstep_remediation (lowerStr (rule.remediation_procedure.getD ""))
            (vstep_description (lowerStr (rule.description.getD ""))
              (vstep_title (lowerStr (rule.title.getD "")) (none, "low", [])))))))

/-- A Validation Issue as appended to `results['issues']`. -/
structure Issue where
  rule_id : String
  title : String
  current_type : String
  suggested_type : String
  confidence : String
  reasons : List String
deriving DecidableEq, Repr

/-- Outcome of `validate_baseline`'s loop body for one rule. -/
inductive RStatus where
  | correct : RStatus
  | incorrect : Issue → RStatus
  | uncertain : Issue → RStatus
deriving DecidableEq, Repr

/-- The per-rule body of `validate_baseline`: compare the re-derived
suggestion with the stored `check_type`; an issue is produced exactly
when they differ or no suggestion was derived. -/
def rule_result (rule : VRule) : RStatus :=
  let rule_id := rule.id.getD "Unknown"
  let current_type := rule.check_type.getD "Unknown"
  let title := rule.title.getD "No title"
  match analyze_rule rule with
  | (some s, confidence, reasons) =>
    if s = current_type then .correct
    else .incorrect ⟨rule_id, title, current_type, s, confidence, reasons⟩
  | (none, _, _) =>
    .uncertain ⟨rule_id, title, current_type, "Unknown", "low",
      ["Could not determine appropriate check type"]⟩

/-- The per-type tallies of `results['summary']`: each entry is
`(correct, incorrect, uncertain)`. The dict has exactly the keys
`secpol`, `registry`, `auditpol`. -/
structure VSummary where
  secpol : Nat × Nat × Nat
  registry : Nat × Nat × Nat
  auditpol : Nat × Nat × Nat
deriving DecidableEq, Repr

/-- Tally step `results['summary'][current_type][slot] += 1`: Python raises
`KeyError` when `current_type` is not one of the three keys. -/
def bump_summary (sm : VSummary) (current_type : String)
    (f : Nat × Nat × Nat → Nat × Nat × Nat) : Except String VSummary :=
  if current_type = "secpol" then .ok { sm with secpol := f sm.secpol }
  else if current_type = "registry" then .ok { sm with registry := f sm.registry }
  else if current_type = "auditpol" then .ok { sm with auditpol := f sm.auditpol }
  else .error ("KeyError: " ++ current_type)

/-- The mutable `results` accumulator of `validate_baseline`. -/
structure VState where
  correct : Nat
  incorrect : Nat
  uncertain : Nat
  issues : List Issue
  summary : VSummary
deriving DecidableEq, Repr

/-- The loop of `validate_baseline`: every rule, whatever its status,
bumps `summary[current_type]`, so one rule with an out-of-bank type
aborts the whole pass. -/
def validate_loop : List VRule → VState → Except String VState
  | [], st => .ok st
  | r :: rs, st =>
    let current_type := r.check_type.getD "Unknown"
    match rule_result r with
    | .correct =>
      match bump_summary st.summary current_type (fun t => (t.1 + 1, t.2.1, t.2.2)) with
      | .error e => .error e
      | .ok sm => validate_loop rs { st with correct := st.correct + 1, summary := sm }
    | .incorrect i =>
      match bump_summary st.summary current_type (fun t => (t.1, t.2.1 + 1, t.2.2)) with
      | .error e => .error e
      | .ok sm =>
        validate_loop rs
          { st with incorrect := st.incorrect + 1, issues := st.issues ++ [i], summary := sm }
    | .uncertain i =>
      match bump_summary st.summary current_type (fun t => (t.1, t.2.1, t.2.2 + 1)) with
      | .error e => .error e
      | .ok sm =>
        validate_loop rs
          { st with uncertain := st.uncertain + 1, issues := st.issues ++ [i], summary := sm }

/-- The validation report of `validate_baseline`. -/
structure VResults where
  total_rules : Nat
  correct : Nat
  incorrect : Nat
  uncertain : Nat
  issues : List Issue
  summary : VSummary
deriving DecidableEq, Repr

/-- Function `validate_baseline` over the baseline's `rules` sequence; a raised
`KeyError` aborts the pass with no report. -/
def validate_baseline (rules : List VRule) : Except String VResults :=
  match validate_loop rules
    ⟨0, 0, 0, [], ⟨(0, 0, 0), (0, 0, 0), (0, 0, 0)⟩⟩ with
  | .error e => .error e
  | .ok st =>
    .ok ⟨rules.length, st.correct, st.incorrect, st.uncertain, st.issues, st.summary⟩

/-! ## `fix_check_types.py` -/

/-- A baseline rule as seen by the corrector: `id` and `check_type` are
read with `rule.get` (possibly absent); `rest` stands for all the other
key/value pairs, which the corrector never touches. -/
structure FRule where
  id : Option String := none
  check_type : Option String := none
  rest : List (String × String) := []
deriving DecidableEq, Repr

/-- The allow-list of rule IDs to change from `registry` to `secpol`. -/
def registry_to_secpol : List String :=
  ["1.1.6", "2.3.1.2", "2.3.6.4", "2.3.6.5", "2.3.7.7", "2.3.8.3",
   "2.3.10.4", "2.3.11.5", "18.1.2.2", "18.9.25.1", "18.9.25.2",
   "18.9.25.3", "18.9.25.4", "18.9.25.5", "18.9.25.6", "18.9.25.8",
   "18.9.28.6", "18.9.33.6.3", "18.9.33.6.4", "18.10.15.1",
   "18.10.57.2.2", "18.10.57.3.9.1", "18.10.82.1", "18.6.10.2",
   "18.10.16.2", "18.10.41.1", "18.10.56.1", "18.10.57.3.2.1",
   "18.10.57.3.10.1"]

/-- The allow-list of rule IDs to change from `auditpol` to `secpol`. -/
def auditpol_to_secpol : List String := ["1.2.2"]

/-- Python `rule_id in allow_list` where `rule_id` may be `None`. -/
def idIn (o : Option String) (l : List String) : Bool :=
  match o with
  | some i => l.contains i
  | none => false

/-- The loop body of `fix_check_types` for one rule: apply the matching
allow-list correction, if any, and record the change line. -/
def fix_rule (r : FRule) : FRule × List String :=
  if idIn r.id registry_to_secpol = true ∧ r.check_type = some "registry" then
    ({ r with check_type := some "secpol" },
     ["Rule " ++ r.id.getD "" ++ ": registry → secpol"])
  else if idIn r.id auditpol_to_secpol = true ∧ r.check_type = some "auditpol" then
    ({ r with check_type := some "secpol" },
     ["Rule " ++ r.id.getD "" ++ ": auditpol → secpol"])
  else (r, [])

/-- Function `fix_check_types` over the baseline's `rules` sequence: returns the
repaired sequence and the accumulated change lines. -/
def fix_check_types : List FRule → List FRule × List String
  | [] => ([], [])
  | r :: rs =>
    let p := fix_rule r
    let q := fix_check_types rs
    (p.1 :: q.1, p.2 ++ q.2)


/-! ## Claims about the Rule Classifier (C1, C2, C3) -/

/-- C1, counterexample: the row whose title is "Shut down the system"
and whose audit text contains the word "registry" classifies as
`registry`, not `security_policy` — `determine_check_type` has no
user-rights rule, and the registry-marker test fires. -/
theorem C1_counterexample :
    determine_check_type "Shut down the system" "Verify the registry entries" = "registry" ∧
    determine_check_type "Shut down the system" "Verify the registry entries" ≠ "security_policy" := by
  decide

/-- C1, amended: for every check text containing the word "registry"
(lowered), a row titled "Shut down the system" classifies as `registry`:
the title matches no service keyword, so the registry-marker rule is the
first to fire. -/
theorem C1_amended (check : String)
    (h : strContains (lowerStr check) "registry" = true) :
    determine_check_type "Shut down the system" check = "registry" := by
  have h1 : (service_title_keywords.any fun k =>
      strContains (lowerStr "Shut down the system") k) = false := by decide
  have h2 : (registry_check_keywords.any fun k => strContains (lowerStr check) k) = true := by
    simp only [List.any_eq_true]
    exact ⟨"registry", by simp [registry_check_keywords], h⟩
  simp [determine_check_type, h1, h2]

/-- C1, witness: the amended claim at a concrete check text. -/
theorem C1_witness :
    determine_check_type "Shut down the system" "Ensure the registry setting is correct"
      = "registry" :=
  C1_amended "Ensure the registry setting is correct" (by decide)

/-- C2, counterexample: a row titled "Print Spooler (Spooler) service"
with audit text containing only `Services\Spooler` (and no
`CurrentControlSet\Services\`) DOES classify as `service`: the title
keyword alone is sufficient, the audit text is never consulted. -/
theorem C2_counterexample :
    determine_check_type "Print Spooler (Spooler) service" "Services\\Spooler" = "service" := by
  decide

/-- C2, amended: for every check text whatsoever, a row titled
"Print Spooler (Spooler) service" classifies as `service` — the service
rule tests only the title, so no second textual signal is required. -/
theorem C2_amended (check : String) :
    determine_check_type "Print Spooler (Spooler) service" check = "service" := rfl

/-- C2, witness: the amended claim at a concrete check text. -/
theorem C2_witness :
    determine_check_type "Print Spooler (Spooler) service" "some unrelated audit text"
      = "service" :=
  C2_amended "some unrelated audit text"

/-- C3, counterexample: an input matching none of the classifier's
rules (no service keyword in the title, no registry keyword in the
check text, no audit keyword and no security-policy keyword in the
title) classifies as `registry`, not `security_policy`. -/
theorem C3_counterexample :
    (service_title_keywords.any fun k => strContains (lowerStr "Ensure foo bar") k) = false ∧
    (registry_check_keywords.any fun k => strContains (lowerStr "nothing here") k) = false ∧
    (audit_title_keywords.any fun k => strContains (lowerStr "Ensure foo bar") k) = false ∧
    (secpol_title_keywords.any fun k => strContains (lowerStr "Ensure foo bar") k) = false ∧
    determine_check_type "Ensure foo bar" "nothing here" = "registry" ∧
    determine_check_type "Ensure foo bar" "nothing here" ≠ "security_policy" := by
  decide

/-- C3, amended: when none of the four ordered keyword tests of
`determine_check_type` fires, the default fallback is `registry`. -/
theorem C3_amended (title check : String)
    (h1 : (service_title_keywords.any fun k => strContains (lowerStr title) k) = false)
    (h2 : (registry_check_keywords.any fun k => strContains (lowerStr check) k) = false)
    (h3 : (audit_title_keywords.any fun k => strContains (lowerStr title) k) = false)
    (h4 : (secpol_title_keywords.any fun k => strContains (lowerStr title) k) = false) :
    determine_check_type title check = "registry" := by
  simp [determine_check_type, h1, h2, h3, h4]

/-- C3, witness: the amended claim at a concrete input. -/
theorem C3_witness : determine_check_type "Ensure baz qux" "empty text" = "registry" :=
  C3_amended "Ensure baz qux" "empty text" (by decide) (by decide) (by decide) (by decide)

/-! ## Claims about registry-target extraction (C4, C6) -/

/-- C4, counterexample: on the spec's end-to-end row the pipeline emits
one record with id `1.1.1` and check_type `registry`, but the target is
the bare captured path `SYSTEM\...` — the labelled hive/path pattern
captures only the path portion and normalization never re-attaches the
`HKLM:` prefix, so the target is not the claimed `HKLM:\SYSTEM\...`. -/
theorem C4_counterexample :
    process_row "1.1.1 Ensure Minimum password length is set to 14 or more"
      "Registry Hive: HKEY_LOCAL_MACHINE Registry Path: SYSTEM\\CurrentControlSet\\Control\\SAM"
      none =
      some { id := "1.1.1",
             title := "1.1.1 Ensure Minimum password length is set to 14 or more",
             check_type := "registry", skip := false,
             target := some "SYSTEM\\CurrentControlSet\\Control\\SAM" } ∧
    (some "SYSTEM\\CurrentControlSet\\Control\\SAM" : Option String)
      ≠ some "HKLM:\\SYSTEM\\CurrentControlSet\\Control\\SAM" := by
  constructor
  · rfl
  · decide

/-- C4, amended: for the spec's end-to-end row the pipeline emits
exactly one Rule Record with id `1.1.1`, check_type `registry`, and
target equal to the captured path without a hive prefix
(`SYSTEM\CurrentControlSet\Control\SAM`); no other sub-field is set. -/
theorem C4_amended :
    process_row "1.1.1 Ensure Minimum password length is set to 14 or more"
      "Registry Hive: HKEY_LOCAL_MACHINE Registry Path: SYSTEM\\CurrentControlSet\\Control\\SAM"
      none =
      some { id := "1.1.1",
             title := "1.1.1 Ensure Minimum password length is set to 14 or more",
             check_type := "registry", skip := false,
             target := some "SYSTEM\\CurrentControlSet\\Control\\SAM",
             registry_name := none, expected_value := none,
             service_name := none, expected_status := none,
             expected_start_type := none, audit_category := none,
             audit_subcategory := none, expected_setting := none,
             level := none } := by
  rfl

/-- C6, counterexample: registry-target extraction is not idempotent.
It maps `HKEY_LOCAL_MACHINE\Software\X` to `HKLM:\Software\X`, but
applied to that result it yields no target at all (the colon-normalized
hive matches none of the six patterns), rather than the same string. -/
theorem C6_counterexample :
    parse_registry_target "HKEY_LOCAL_MACHINE\\Software\\X" = some "HKLM:\\Software\\X" ∧
    parse_registry_target "HKLM:\\Software\\X" ≠ some "HKLM:\\Software\\X" := by
  decide

/-! ## Claims about the Classification Validator (C7, C10) -/

/-- Helper: when the (lowered) audit procedure starts with `hklm`, the
audit-procedure signal fires and overwrites any earlier suggestion with
`registry` at high confidence. -/
theorem vstep_audit_hklm (ap : String) (s : AState)
    (h : strStartsWith ap "hklm" = true) :
    vstep_audit ap s =
      (some "registry", "high", s.2.2 ++ ["Audit procedure specifies registry path"]) := by
  have hne : ap ≠ "" := by
    intro he
    subst he
    exact absurd h (by decide)
  unfold vstep_audit
  rw [if_neg hne, h]
  simp

/-- Helper: an empty target field fires no target signal. -/
theorem vstep_target_empty (s : AState) : vstep_target "" s = s := rfl

/-- Helper: when the lowered title contains none of the special-case
keywords, the special-cases block leaves the state unchanged. -/
theorem vstep_special_id (title description : String) (s : AState)
    (h1 : strContains title "password" = false)
    (h2 : strContains title "account lockout" = false)
    (h3 : strContains title "user rights" = false)
    (h4 : strContains title "user right" = false)
    (h5 : strContains title "system services" = false)
    (h6 : strContains title "service" = false)
    (h7 : strContains title "file system" = false)
    (h8 : strContains title "ntfs" = false) :
    vstep_special title description s = s := by
  unfold vstep_special
  simp [h1, h2, h3, h4, h5, h6, h7, h8]

/-- Helper: the default block never overrides an existing suggestion. -/
theorem vstep_default_some (title x conf : String) (rs : List String) :
    vstep_default title (some x, conf, rs) = (some x, conf, rs) := rfl

/-- C7, counterexample: a record with `check_type = "registry"` whose
audit procedure starts with `hklm` CAN be reported: a later signal
(here the `service` special case on the title) overwrites the
registry suggestion with `secpol`, which differs from the stored type,
so the validator emits an issue. -/
theorem C7_counterexample :
    VRule.check_type
        { id := some "5.5", title := some "Ensure the Spooler service is disabled",
          audit_procedure := some "HKLM\\SOFTWARE\\X check value",
          check_type := some "registry" } = some "registry" ∧
    strStartsWith
      (lowerStr (Option.getD
        (VRule.audit_procedure
          { id := some "5.5", title := some "Ensure the Spooler service is disabled",
            audit_procedure := some "HKLM\\SOFTWARE\\X check value",
            check_type := some "registry" }) "")) "hklm" = true ∧
    rule_result
        { id := some "5.5", title := some "Ensure the Spooler service is disabled",
          audit_procedure := some "HKLM\\SOFTWARE\\X check value",
          check_type := some "registry" } ≠ RStatus.correct := by
  decide

/-- C7, amended: for a record with `check_type = "registry"` whose
lowered audit procedure starts with `hklm`, the validator emits no
issue PROVIDED no later signal overwrites the suggestion: the target
field is empty and the lowered title contains none of the special-case
keywords (`password`, `account lockout`, `user rights`, `user right`,
`system services`, `service`, `file system`, `ntfs`). -/
theorem C7_amended (rule : VRule)
    (hct : rule.check_type = some "registry")
    (hap : strStartsWith (lowerStr (rule.audit_procedure.getD "")) "hklm" = true)
    (htg : lowerStr (rule.target.getD "") = "")
    (h1 : strContains (lowerStr (rule.title.getD "")) "password" = false)
    (h2 : strContains (lowerStr (rule.title.getD "")) "account lockout" = false)
    (h3 : strContains (lowerStr (rule.title.getD "")) "user rights" = false)
    (h4 : strContains (lowerStr (rule.title.getD "")) "user right" = false)
    (h5 : strContains (lowerStr (rule.title.getD "")) "system services" = false)
    (h6 : strContains (lowerStr (rule.title.getD "")) "service" = false)
    (h7 : strContains (lowerStr (rule.title.getD "")) "file system" = false)
    (h8 : strContains (lowerStr (rule.title.getD "")) "ntfs" = false) :
    rule_result rule = RStatus.correct := by
  obtain ⟨rs, hA⟩ : ∃ rs, analyze_rule rule = (some "registry", "high", rs) := by
    unfold analyze_rule
    rw [vstep_audit_hklm _ _ hap, htg, vstep_target_empty,
      vstep_special_id _ _ _ h1 h2 h3 h4 h5 h6 h7 h8, vstep_default_some]
    exact ⟨_, rfl⟩
  unfold rule_result
  rw [hA, hct]
  simp

/-- C7, witness: the amended claim at a concrete record. -/
theorem C7_witness :
    rule_result
      { id := some "18.4.1", title := some "Ensure MSS settings are configured",
        audit_procedure := some "HKLM\\SYSTEM\\CurrentControlSet\\Control",
        check_type := some "registry" } = RStatus.correct :=
  C7_amended _ (by decide) (by decide) (by decide) (by decide) (by decide) (by decide)
    (by decide) (by decide) (by decide) (by decide) (by decide)

/-! ## Claims about identifier extraction (C5) -/

/-- Helper: `takeWhile`/`dropWhile` on `a ++ t` when every element of
`a` satisfies `p` and the head of `t` (if any) does not. -/
theorem span_all_append {α : Type} (p : α → Bool) (a t : List α)
    (ha : ∀ x ∈ a, p x = true)
    (ht : ∀ c cs, t = c :: cs → p c = false) :
    (a ++ t).takeWhile p = a ∧ (a ++ t).dropWhile p = t := by
  induction a with
  | nil =>
    cases t with
    | nil => exact ⟨rfl, rfl⟩
    | cons c cs =>
      have hc := ht c cs rfl
      constructor
      · simp [List.takeWhile_cons, hc]
      · simp [List.dropWhile_cons, hc]
  | cons x xs ih =>
    have hx : p x = true := ha x (by simp)
    have ih' := ih fun y hy => ha y (by simp [hy])
    constructor
    · simp [List.takeWhile_cons, hx, ih'.1]
    · simp [List.dropWhile_cons, hx, ih'.2]

/-- Helper: the head of `dropWhile p l`, when present, fails `p`. -/
theorem dropWhile_head_false {α : Type} (p : α → Bool) (l : List α) :
    ∀ c cs, l.dropWhile p = c :: cs → p c = false := by
  induction l with
  | nil => intro c cs h; cases h
  | cons x xs ih =>
    intro c cs h
    rw [List.dropWhile_cons] at h
    by_cases hx : p x = true
    · rw [if_pos hx] at h
      exact ih c cs h
    · rw [if_neg hx] at h
      injection h with h1 _
      subst h1
      exact Bool.not_eq_true _ |>.mp hx

/-- Helper: `extract_rule_id_core` on a list that starts with three
dotted digit runs returns exactly those three runs. -/
theorem extract_core_of_parts (a b c rest : List Char)
    (hane : a ≠ []) (hbne : b ≠ []) (hcne : c ≠ [])
    (hda : ∀ x ∈ a, x.isDigit = true) (hdb : ∀ x ∈ b, x.isDigit = true)
    (hdc : ∀ x ∈ c, x.isDigit = true)
    (hrest : ∀ ch l, rest = ch :: l → ch.isDigit = false) :
    extract_rule_id_core (a ++ '.' :: (b ++ '.' :: (c ++ rest)))
      = some (a ++ '.' :: (b ++ '.' :: c)) := by
  obtain ⟨ht1, hd1⟩ := span_all_append Char.isDigit a ('.' :: (b ++ '.' :: (c ++ rest))) hda
    (by intro ch l h; injection h with h1 _; subst h1; decide)
  obtain ⟨ht2, hd2⟩ := span_all_append Char.isDigit b ('.' :: (c ++ rest)) hdb
    (by intro ch l h; injection h with h1 _; subst h1; decide)
  obtain ⟨ht3, hd3⟩ := span_all_append Char.isDigit c rest hdc hrest
  have hae : a.isEmpty = false := List.isEmpty_eq_false.mpr hane
  have hbe : b.isEmpty = false := List.isEmpty_eq_false.mpr hbne
  have hce : c.isEmpty = false := List.isEmpty_eq_false.mpr hcne
  unfold extract_rule_id_core
  rw [ht1, hd1, hae]
  simp only [Bool.false_eq_true, if_false]
  rw [ht2, hd2, hbe]
  simp only [Bool.false_eq_true, if_false, if_pos rfl]
  rw [ht3, hce]
  simp

/-- Helper: whenever `extract_rule_id_core` succeeds, the input starts
with three dotted nonempty digit runs, the remainder does not start
with a digit, and the result is exactly those three runs. -/
theorem extract_core_some (l r : List Char)
    (h : extract_rule_id_core l = some r) :
    ∃ a b c rest, l = a ++ '.' :: (b ++ '.' :: (c ++ rest)) ∧
      a ≠ [] ∧ b ≠ [] ∧ c ≠ [] ∧
      (∀ x ∈ a, x.isDigit = true) ∧ (∀ x ∈ b, x.isDigit = true) ∧
      (∀ x ∈ c, x.isDigit = true) ∧
      (∀ ch cs, rest = ch :: cs → ch.isDigit = false) ∧
      r = a ++ '.' :: (b ++ '.' :: c) := by
  unfold extract_rule_id_core at h
  by_cases h1 : (l.takeWhile Char.isDigit).isEmpty = true
  · rw [if_pos h1] at h; cases h
  · rw [if_neg h1] at h
    cases heq1 : l.dropWhile Char.isDigit with
    | nil => rw [heq1] at h; cases h
    | cons c1 r2 =>
      rw [heq1] at h
      dsimp only at h
      by_cases hc1 : c1 = '.'
      · subst hc1
        rw [if_pos rfl] at h
        by_cases h2 : (r2.takeWhile Char.isDigit).isEmpty = true
        · rw [if_pos h2] at h; cases h
        · rw [if_neg h2] at h
          cases heq2 : r2.dropWhile Char.isDigit with
          | nil => rw [heq2] at h; cases h
          | cons c2 r4 =>
            rw [heq2] at h
            dsimp only at h
            by_cases hc2 : c2 = '.'
            · subst hc2
              rw [if_pos rfl] at h
              by_cases h3 : (r4.takeWhile Char.isDigit).isEmpty = true
              · rw [if_pos h3] at h; cases h
              · rw [if_neg h3] at h
                injection h with hr
                have ha1 : (l.takeWhile Char.isDigit).isEmpty = false := by simpa using h1
                have ha2 : (r2.takeWhile Char.isDigit).isEmpty = false := by simpa using h2
                have ha3 : (r4.takeWhile Char.isDigit).isEmpty = false := by simpa using h3
                refine ⟨l.takeWhile Char.isDigit, r2.takeWhile Char.isDigit,
                  r4.takeWhile Char.isDigit, r4.dropWhile Char.isDigit,
                  ?_, List.isEmpty_eq_false.mp ha1, List.isEmpty_eq_false.mp ha2,
                  List.isEmpty_eq_false.mp ha3,
                  fun x hx => List.mem_takeWhile_imp hx,
                  fun x hx => List.mem_takeWhile_imp hx,
                  fun x hx => List.mem_takeWhile_imp hx,
                  dropWhile_head_false Char.isDigit r4, hr.symm⟩
                have e2 : r2 = r2.takeWhile Char.isDigit ++ '.' :: r4 := by
                  conv_lhs => rw [← List.takeWhile_append_dropWhile Char.isDigit r2, heq2]
                conv_lhs => rw [← List.takeWhile_append_dropWhile Char.isDigit l, heq1, e2]
                rw [List.takeWhile_append_dropWhile]
            · rw [if_neg hc2] at h; cases h
      · rw [if_neg hc1] at h; cases h

/-- C5, counterexample: on a title starting with a FOUR-component
dotted sequence, identifier extraction does not return the full
sequence: the pattern matches exactly three components, so
`"1.2.3.4 Ensure something"` yields `"1.2.3"`, not `"1.2.3.4"`. -/
theorem C5_counterexample :
    extract_rule_id "1.2.3.4 Ensure something" = some "1.2.3" ∧
    (some "1.2.3" : Option String) ≠ some "1.2.3.4" := by
  decide

/-- C5, amended: (i) for every title whose stripped text starts with
three dotted nonempty digit runs, identifier extraction returns exactly
the FIRST THREE components (even when more follow); (ii) whenever
extraction succeeds the stripped title did start with three dotted
digit runs and the result is those three runs, so a title without such
a leading sequence yields no identifier; (iii) a row whose cleaned
title yields no identifier is discarded: the pipeline emits no record
for it. -/
theorem C5_amended :
    (∀ (title : String) (a b c rest : List Char),
      stripChars title.data = a ++ '.' :: (b ++ '.' :: (c ++ rest)) →
      a ≠ [] → b ≠ [] → c ≠ [] →
      (∀ x ∈ a, x.isDigit = true) → (∀ x ∈ b, x.isDigit = true) →
      (∀ x ∈ c, x.isDigit = true) →
      (∀ ch l, rest = ch :: l → ch.isDigit = false) →
      extract_rule_id title = some ⟨a ++ '.' :: (b ++ '.' :: c)⟩) ∧
    (∀ (title r : String), extract_rule_id title = some r →
      ∃ a b c rest, stripChars title.data = a ++ '.' :: (b ++ '.' :: (c ++ rest)) ∧
        a ≠ [] ∧ b ≠ [] ∧ c ≠ [] ∧
        (∀ x ∈ a, x.isDigit = true) ∧ (∀ x ∈ b, x.isDigit = true) ∧
        (∀ x ∈ c, x.isDigit = true) ∧ r = ⟨a ++ '.' :: (b ++ '.' :: c)⟩) ∧
    (∀ (rawTitle rawCheck : String) (rawLevel : Option String),
      extract_rule_id (clean_text rawTitle) = none →
      process_row rawTitle rawCheck rawLevel = none) := by
  refine ⟨?_, ?_, ?_⟩
  · intro title a b c rest hstrip hane hbne hcne hda hdb hdc hrest
    have htitle : title ≠ "" := by
      intro he
      have h0 : stripChars ("" : String).data = [] := rfl
      rw [he, h0] at hstrip
      exact absurd hstrip.symm (by simp)
    unfold extract_rule_id
    rw [if_neg htitle, hstrip,
      extract_core_of_parts a b c rest hane hbne hcne hda hdb hdc hrest]
    rfl
  · intro title r h
    unfold extract_rule_id at h
    by_cases htitle : title = ""
    · rw [if_pos htitle] at h; cases h
    · rw [if_neg htitle] at h
      obtain ⟨lr, hcore, hmk⟩ := Option.map_eq_some'.mp h
      obtain ⟨a, b, c, rest, hl, hane, hbne, hcne, hda, hdb, hdc, _, hr⟩ :=
        extract_core_some _ _ hcore
      refine ⟨a, b, c, rest, hl, hane, hbne, hcne, hda, hdb, hdc, ?_⟩
      rw [← hmk, hr]
  · intro t c lvl h
    unfold process_row
    dsimp only
    rw [h]
    split_ifs <;> rfl

/-- C5, witness: the amended claim at concrete inputs — a title with a
trailing remainder parses to its first three components, and a row
whose title has no identifier is dropped. -/
theorem C5_witness :
    extract_rule_id "12.3.45 Ensure x" = some "12.3.45" ∧
    process_row "no identifier here" "some check" none = none := by
  constructor
  · have h := C5_amended.1 "12.3.45 Ensure x" "12".data "3".data "45".data " Ensure x".data
      (by decide) (by decide) (by decide) (by decide) (by decide) (by decide) (by decide)
      (by intro ch l hh; injection hh with h1 _; subst h1; decide)
    exact h.trans rfl
  · exact C5_amended.2.2 "no identifier here" "some check" none (by decide)

/-- C6, amended: `parse_registry_target` maps
`HKEY_LOCAL_MACHINE\Software\X` to `HKLM:\Software\X`, but it is not
idempotent: re-applied to that output it returns `none`, because the
normalized `HKLM:\` form is not matched by any search pattern. -/
theorem C6_amended :
    parse_registry_target "HKEY_LOCAL_MACHINE\\Software\\X" = some "HKLM:\\Software\\X" ∧
    (parse_registry_target "HKLM:\\Software\\X").isNone = true := by
  decide

/-! ## Claims about the Classification Corrector (C8) -/

/-- Helper: the repaired sequence is the pointwise image of the rules
under the per-rule fix. -/
theorem fix_check_types_fst (rules : List FRule) :
    (fix_check_types rules).1 = rules.map (fun r => (fix_rule r).1) := by
  induction rules with
  | nil => rfl
  | cons x xs ih => simp [fix_check_types, ih]

/-- Helper: a rule matching neither allow-list entry is returned
unchanged with no change line. -/
theorem fix_rule_untouched (r : FRule)
    (h1 : ¬(idIn r.id registry_to_secpol = true ∧ r.check_type = some "registry"))
    (h2 : ¬(idIn r.id auditpol_to_secpol = true ∧ r.check_type = some "auditpol")) :
    fix_rule r = (r, []) := by
  unfold fix_rule
  rw [if_neg h1, if_neg h2]

/-- Helper: a rule already carrying `secpol` is never modified. -/
theorem fix_rule_of_secpol (r : FRule) (h : r.check_type = some "secpol") :
    fix_rule r = (r, []) := by
  apply fix_rule_untouched
  · rintro ⟨-, hc⟩
    rw [h] at hc
    exact absurd hc (by decide)
  · rintro ⟨-, hc⟩
    rw [h] at hc
    exact absurd hc (by decide)

/-- Helper: the per-rule fix is idempotent on the rule component. -/
theorem fix_rule_fst_idem (r : FRule) :
    (fix_rule (fix_rule r).1).1 = (fix_rule r).1 := by
  by_cases h1 : idIn r.id registry_to_secpol = true ∧ r.check_type = some "registry"
  · have hfst : (fix_rule r).1 = { r with check_type := some "secpol" } := by
      unfold fix_rule
      rw [if_pos h1]
  
    rw [hfst, fix_rule_of_secpol _ rfl]
  · by_cases h2 : idIn r.id auditpol_to_secpol = true ∧ r.check_type = some "auditpol"
    · have hfst : (fix_rule r).1 = { r with check_type := some "secpol" } := by
        unfold fix_rule
        rw [if_neg h1, if_pos h2]
      rw [hfst, fix_rule_of_secpol _ rfl]
    · rw [fix_rule_untouched r h1 h2, fix_rule_untouched r h1 h2]

/-- C8: the Classification Corrector is idempotent — applying the
allow-list fix twice yields the same rules sequence as applying it
once — and a rule whose ID is not on an allow-list, or whose current
`check_type` does not match the listed prior value, is left completely
unmodified. -/
theorem C8_corrector_idempotent :
    (∀ rules : List FRule,
      (fix_check_types (fix_check_types rules).1).1 = (fix_check_types rules).1) ∧
    (∀ r : FRule,
      ¬(idIn r.id registry_to_secpol = true ∧ r.check_type = some "registry") →
      ¬(idIn r.id auditpol_to_secpol = true ∧ r.check_type = some "auditpol") →
      (fix_rule r).1 = r) := by
  constructor
  · intro rules
    rw [fix_check_types_fst, fix_check_types_fst, List.map_map]
    exact List.map_congr_left fun a _ => fix_rule_fst_idem a
  · intro r h1 h2
    rw [fix_rule_untouched r h1 h2]

/-- C8, witness: idempotence on a concrete one-rule baseline that the
allow-list does change, and invariance of a rule not on the list. -/
theorem C8_witness :
    (fix_check_types (fix_check_types [⟨some "1.1.6", some "registry", []⟩]).1).1
      = (fix_check_types [⟨some "1.1.6", some "registry", []⟩]).1 ∧
    (fix_rule ⟨some "9.9.9", some "registry", []⟩).1
      = ⟨some "9.9.9", some "registry", []⟩ :=
  ⟨C8_corrector_idempotent.1 _,
   C8_corrector_idempotent.2 _ (by decide) (by decide)⟩

/-! ## Claim about type-gated sub-fields (C9) -/

/-- C9: every Rule Record emitted by the converter carries only
sub-fields consistent with its `check_type`: registry sub-fields force
`check_type = "registry"`, service sub-fields force
`check_type = "service"`, and audit sub-fields force
`check_type = "audit_policy"`; a record of one type never carries a
sub-field of another type. -/
theorem C9_type_gated_subfields (rawTitle rawCheck : String)
    (rawLevel : Option String) (r : Rule)
    (h : process_row rawTitle rawCheck rawLevel = some r) :
    ((r.target ≠ none ∨ r.registry_name ≠ none ∨ r.expected_value ≠ none) →
      r.check_type = "registry") ∧
    ((r.service_name ≠ none ∨ r.expected_status ≠ none ∨ r.expected_start_type ≠ none) →
      r.check_type = "service") ∧
    ((r.audit_category ≠ none ∨ r.audit_subcategory ≠ none ∨ r.expected_setting ≠ none) →
      r.check_type = "audit_policy") := by
  unfold process_row at h
  dsimp only at h
  by_cases h0 : (clean_text rawTitle = "" ||
      header_titles.contains (lowerStr (clean_text rawTitle))) = true
  · rw [if_pos h0] at h
    cases h
  · rw [if_neg h0] at h
    cases heid : extract_rule_id (clean_text rawTitle) with
    | none =>
      rw [heid] at h
      cases h
    | some rid =>
      rw [heid] at h
      dsimp only at h
      injection h with hB
      subst hB
      by_cases hc1 : determine_check_type (clean_text rawTitle) (clean_text rawCheck) = "registry"
      · cases rawLevel <;> simp [hc1, apply_ite]
      · by_cases hc2 : determine_check_type (clean_text rawTitle) (clean_text rawCheck) = "service"
        · cases rawLevel <;> simp [hc1, hc2, apply_ite]
        · by_cases hc3 :
            determine_check_type (clean_text rawTitle) (clean_text rawCheck) = "audit_policy"
          · cases rawLevel <;> simp [hc1, hc2, hc3, apply_ite]
          · cases rawLevel <;> simp [hc1, hc2, hc3, apply_ite]

/-- C9, witness: the gating applied to a concrete service row — the
emitted record carries `service_name`, hence its type is `service`. -/
theorem C9_witness :
    Rule.check_type
      { id := "2.2.9", title := "2.2.9 Ensure Telnet service is disabled",
        check_type := "service", skip := false,
        service_name := some "tlntsvr", expected_status := some "Disabled" }
      = "service" :=
  (C9_type_gated_subfields "2.2.9 Ensure Telnet service is disabled"
    "Service Name: tlntsvr Status: Disabled" none _ (by decide)).2.1
    (Or.inl (by decide))

/-! ## Claim about the validator's summary tally (C10) -/

/-- Helper: bumping the summary for one of its three keys succeeds. -/
theorem bump_summary_ok (sm : VSummary) (ty : String)
    (f : Nat × Nat × Nat → Nat × Nat × Nat)
    (h : ty = "secpol" ∨ ty = "registry" ∨ ty = "auditpol") :
    ∃ sm2, bump_summary sm ty f = .ok sm2 := by
  rcases h with h | h | h <;> subst h <;> exact ⟨_, rfl⟩

/-- Helper: bumping the summary for any other key raises `KeyError`. -/
theorem bump_summary_err (sm : VSummary) (ty : String)
    (f : Nat × Nat × Nat → Nat × Nat × Nat)
    (h1 : ty ≠ "secpol") (h2 : ty ≠ "registry") (h3 : ty ≠ "auditpol") :
    bump_summary sm ty f = .error ("KeyError: " ++ ty) := by
  unfold bump_summary
  rw [if_neg h1, if_neg h2, if_neg h3]

/-- Helper: a baseline containing a rule whose stored type is outside
the summary's key set makes the validation loop raise, whatever the
accumulator state. -/
theorem validate_loop_err (rules : List VRule) (st : VState)
    (h : ∃ r ∈ rules, ¬((r.check_type.getD "Unknown") = "secpol" ∨
      (r.check_type.getD "Unknown") = "registry" ∨
      (r.check_type.getD "Unknown") = "auditpol")) :
    ∃ e, validate_loop rules st = .error e := by
  induction rules generalizing st with
  | nil =>
    obtain ⟨r, hr, -⟩ := h
    cases hr
  | cons x xs ih =>
    obtain ⟨r, hr, hbad⟩ := h
    by_cases hx : (x.check_type.getD "Unknown") = "secpol" ∨
        (x.check_type.getD "Unknown") = "registry" ∨
        (x.check_type.getD "Unknown") = "auditpol"
    · have hr' : r ∈ xs := by
        rcases List.mem_cons.mp hr with heq | hmem
        · exact absurd (heq ▸ hx) hbad
        · exact hmem
      unfold validate_loop
      dsimp only
      cases hrr : rule_result x with
      | correct =>
        obtain ⟨sm2, hb⟩ := bump_summary_ok st.summary _ _ hx
        dsimp only
        rw [hb]
        exact ih _ ⟨r, hr', hbad⟩
      | incorrect i =>
        obtain ⟨sm2, hb⟩ := bump_summary_ok st.summary _ _ hx
        dsimp only
        rw [hb]
        exact ih _ ⟨r, hr', hbad⟩
      | uncertain i =>
        obtain ⟨sm2, hb⟩ := bump_summary_ok st.summary _ _ hx
        dsimp only
        rw [hb]
        exact ih _ ⟨r, hr', hbad⟩
    · push_neg at hx
      obtain ⟨ha, hb, hc⟩ := hx
      unfold validate_loop
      dsimp only
      cases hrr : rule_result x with
      | correct =>
        dsimp only
        rw [bump_summary_err st.summary _ _ ha hb hc]
        exact ⟨_, rfl⟩
      | incorrect i =>
        dsimp only
        rw [bump_summary_err st.summary _ _ ha hb hc]
        exact ⟨_, rfl⟩
      | uncertain i =>
        dsimp only
        rw [bump_summary_err st.summary _ _ ha hb hc]
        exact ⟨_, rfl⟩

/-- C10: the validator's whole-baseline pass succeeds only when every
stored `check_type` is one of `secpol`, `registry`, `auditpol`: any
baseline containing a rule with any other stored type (including the
converter's own labels such as `service`, or a missing type defaulted
to `Unknown`) makes the per-type summary tally raise `KeyError`, and no
validation report is produced. -/
theorem C10_validator_rejects_foreign_types (rules : List VRule) (r : VRule)
    (hr : r ∈ rules)
    (hbad : (r.check_type.getD "Unknown") ∉ (["secpol", "registry", "auditpol"] : List String)) :
    ∃ e, validate_baseline rules = .error e := by
  have hbad' : ¬((r.check_type.getD "Unknown") = "secpol" ∨
      (r.check_type.getD "Unknown") = "registry" ∨
      (r.check_type.getD "Unknown") = "auditpol") := by
    simpa using hbad
  obtain ⟨e, he⟩ := validate_loop_err rules
    ⟨0, 0, 0, [], ⟨(0, 0, 0), (0, 0, 0), (0, 0, 0)⟩⟩ ⟨r, hr, hbad'⟩
  refine ⟨e, ?_⟩
  unfold validate_baseline
  rw [he]

/-- C10, witness: a one-rule baseline whose stored type is the
converter's label `service` aborts with a `KeyError` and yields no
report. -/
theorem C10_witness :
    ∃ e, validate_baseline
      [{ id := some "2.2.1", title := some "x", check_type := some "service" }] = .error e :=
  C10_validator_rejects_foreign_types _
    { id := some "2.2.1", title := some "x", check_type := some "service" }
    (List.mem_singleton.mpr rfl) (by decide)
